import Mathlib

/-!
# SurveyTray: formalisation of the core data model and route handlers

A shallow embedding of the SQLite-backed Flask application in `src/`:
the three relational tables (`outlets`, `users`, `executions`) become
lists of records, each route handler or model classmethod becomes a
pure state-transforming function translated from its Python source
(`app_admin.py`, `pykes/models.py`, `pykes/routes.py`, `pykes/utils.py`,
`app_reports.py`), and SQLite CHECK/UNIQUE constraint failures become
`Except` errors.  Timestamps are modelled as natural numbers (seconds);
the textual `YYYY-MM-DD HH:MM:SS` format used by the code is
order-isomorphic to that.
-/

/-- JSON values, as needed to model `json.dumps`/`json.loads` of the
`products_available` and `device_info` blobs. -/
inductive Json where
  | null : Json
  | bool (b : Bool) : Json
  | num (n : Int) : Json
  | str (s : String) : Json
  | arr (xs : List Json) : Json
  | obj (kvs : List (String × Json)) : Json

/-- A row of the `outlets` table (schema in `models.py`, `init_db`). -/
structure Outlet where
  oid : Nat
  urn : String
  outlet_name : String
  customer_name : String := ""
  address : String := ""
  phone : String := ""
  outlet_type : String := ""
  local_govt : String := ""
  state : String := ""
  region : String
  is_active : Bool := true
deriving Repr, DecidableEq

/-- A row of the `users` table (the columns the verified handlers touch). -/
structure UserRow where
  uid : Nat
  username : String
  password : String := ""
  full_name : String := ""
  role : String := "field_agent"
  region : String := ""
  state : String := ""
  lga : String := ""
  is_active : Bool := true
deriving Repr, DecidableEq

/-- A row of the `executions` table (the columns the verified handlers touch).
`products_available` is kept as a JSON value; the code stores its
`json.dumps` rendering. -/
structure ExecRow where
  eid : Nat
  outlet_id : Nat
  agent_id : Nat
  execution_date : Nat
  before_image : Option String := none
  after_image : Option String := none
  latitude : Option Int := none
  longitude : Option Int := none
  notes : String := ""
  products_available : Option Json := none
  status : String := "Pending"

/-- The database state: the three tables plus the AUTOINCREMENT counters. -/
structure DB where
  outlets : List Outlet := []
  users : List UserRow := []
  execs : List ExecRow := []
  nextOutletId : Nat := 1
  nextExecId : Nat := 1

/-- The CHECK constraint `status_valid` of the `executions` table
(`models.py` line 192) together with `ExecutionModel.VALID_STATUSES`. -/
def VALID_STATUSES : List String := ["Pending", "In_Progress", "Completed", "Cancelled"]

/-- Insert into `executions`, enforcing the `status_valid` CHECK constraint
of the schema: an insert whose status is outside the enum raises, which the
embedding reports as an error and leaves the table unchanged. -/
def dbInsertExec (db : DB) (mk : Nat → ExecRow) : Except String DB :=
  let row := mk db.nextExecId
  if VALID_STATUSES.contains row.status then
    Except.ok { db with execs := db.execs ++ [row], nextExecId := db.nextExecId + 1 }
  else
    Except.error "CHECK constraint failed: status_valid"

/-- Insert into `outlets`, enforcing the CHECK constraints `urn_format`,
`outlet_name_length`, `region_required` and the UNIQUE constraint on `urn`
of the schema (`models.py` lines 104-121). -/
def dbInsertOutlet (db : DB) (mk : Nat → Outlet) : Except String DB :=
  let row := mk db.nextOutletId
  if row.urn = "" then Except.error "CHECK constraint failed: urn_format"
  else if row.outlet_name = "" then Except.error "CHECK constraint failed: outlet_name_length"
  else if row.region = "" then Except.error "CHECK constraint failed: region_required"
  else if db.outlets.any (fun o => o.urn == row.urn) then
    Except.error "UNIQUE constraint failed: outlets.urn"
  else
    Except.ok { db with outlets := db.outlets ++ [row], nextOutletId := db.nextOutletId + 1 }

/-- No two rows of the outlets table share a URN. -/
def uniqueUrns (outlets : List Outlet) : Prop :=
  outlets.Pairwise (fun o₁ o₂ => o₁.urn ≠ o₂.urn)

/-! ## Outlet creation (`app_admin.outlet_new`, `OutletModel.create_outlet`) -/

/-- The form fields read by `outlet_new` (each `request.form.get(k, '').strip()`). -/
structure OutletForm where
  urn : String := ""
  outlet_name : String := ""
  customer_name : String := ""
  address : String := ""
  phone : String := ""
  outlet_type : String := ""
  local_govt : String := ""
  state : String := ""
  region : String := ""
deriving Repr, DecidableEq

/-- Python's `str.strip()`: drop leading and trailing whitespace. -/
def pyStrip (s : String) : String :=
  String.mk (((s.data.dropWhile Char.isWhitespace).reverse.dropWhile Char.isWhitespace).reverse)

/-- `.strip()` every field, as both handlers do on entry. -/
def OutletForm.strip (f : OutletForm) : OutletForm :=
  { urn := pyStrip f.urn, outlet_name := pyStrip f.outlet_name,
    customer_name := pyStrip f.customer_name, address := pyStrip f.address,
    phone := pyStrip f.phone, outlet_type := pyStrip f.outlet_type,
    local_govt := pyStrip f.local_govt, state := pyStrip f.state,
    region := pyStrip f.region }

/-- Outcome of an outlet-creation request: a flash message plus whether the
handler reached the INSERT. -/
inductive OutletNewResult where
  | missingFields (msg : String)
  | urnExists (msg : String)
  | created (msg : String)
deriving Repr, DecidableEq

/-- `app_admin.outlet_new`, POST branch (lines 417-459): strip the form,
reject when a required field is blank, reject when the URN is already
present, otherwise insert the new outlet. -/
def outlet_new (db : DB) (form : OutletForm) : OutletNewResult × DB :=
  let f := form.strip
  if f.urn = "" ∨ f.outlet_name = "" ∨ f.region = "" then
    (OutletNewResult.missingFields "URN, Retail Point Name and Region are required", db)
  else if db.outlets.any (fun o => o.urn == f.urn) then
    (OutletNewResult.urnExists "URN already exists", db)
  else
    let row : Outlet :=
      { oid := db.nextOutletId, urn := f.urn,
        outlet_name := f.outlet_name, customer_name := f.customer_name,
        address := f.address, phone := f.phone, outlet_type := f.outlet_type,
        local_govt := f.local_govt, state := f.state, region := f.region }
    (OutletNewResult.created "Outlet created successfully",
     { db with outlets := db.outlets ++ [row], nextOutletId := db.nextOutletId + 1 })

/-- Result of a model-level create call: `(True, rowid)` or `(False, message)`. -/
inductive CreateResult where
  | ok (rowid : Nat)
  | err (msg : String)
deriving Repr, DecidableEq

/-- `OutletModel.create_outlet` (`models.py` lines 431-477): sanitize
(strip) the data, validate the required fields `urn`, `outlet_name`,
`region` (Python truthiness: blank fails), reject a duplicate URN with
"URN already exists", otherwise insert. -/
def OutletModel.create_outlet (db : DB) (outlet_data : OutletForm) : CreateResult × DB :=
  let d := outlet_data.strip
  if d.urn = "" ∨ d.outlet_name = "" ∨ d.region = "" then
    (CreateResult.err "Missing required fields", db)
  else if db.outlets.any (fun o => o.urn == d.urn) then
    (CreateResult.err "URN already exists", db)
  else
    let row : Outlet :=
      { oid := db.nextOutletId, urn := d.urn,
        outlet_name := d.outlet_name, customer_name := d.customer_name,
        address := d.address, phone := d.phone, outlet_type := d.outlet_type,
        local_govt := d.local_govt, state := d.state, region := d.region }
    (CreateResult.ok db.nextOutletId,
     { db with outlets := db.outlets ++ [row], nextOutletId := db.nextOutletId + 1 })
/-! ## C1: URN is a unique natural key for outlets -/

theorem uniqueUrns_append_of_not_found {l : List Outlet} {row : Outlet}
    (hu : uniqueUrns l) (hnew : l.any (fun o => o.urn == row.urn) = false) :
    uniqueUrns (l ++ [row]) := by
  have hnotin : ∀ a ∈ l, a.urn ≠ row.urn := by
    intro a ha heq
    have hany : l.any (fun o => o.urn == row.urn) = true := by
      simp only [List.any_eq_true]
      exact ⟨a, ha, by simp [heq]⟩
    rw [hany] at hnew
    exact absurd hnew (by simp)
  rw [uniqueUrns, List.pairwise_append]
  refine ⟨hu, List.pairwise_singleton _ _, ?_⟩
  intro a ha b hb
  have hb' : b = row := by simpa using hb
  subst hb'
  exact hnotin a ha

/-- Both create operations preserve URN uniqueness: they only reach the
INSERT after the duplicate check found no outlet with that URN. -/
theorem create_ops_preserve_uniqueUrns (db : DB) (f : OutletForm)
    (hu : uniqueUrns db.outlets) :
    uniqueUrns ((outlet_new db f).2.outlets) ∧
    uniqueUrns ((OutletModel.create_outlet db f).2.outlets) := by
  constructor
  · simp only [outlet_new]
    by_cases h1 : f.strip.urn = "" ∨ f.strip.outlet_name = "" ∨ f.strip.region = ""
    · rw [if_pos h1]
      exact hu
    · rw [if_neg h1]
      by_cases h2 : db.outlets.any (fun o => o.urn == f.strip.urn) = true
      · rw [if_pos h2]
        exact hu
      · rw [if_neg h2]
        exact uniqueUrns_append_of_not_found hu (Bool.eq_false_iff.mpr h2)
  · simp only [OutletModel.create_outlet]
    by_cases h1 : f.strip.urn = "" ∨ f.strip.outlet_name = "" ∨ f.strip.region = ""
    · rw [if_pos h1]
      exact hu
    · rw [if_neg h1]
      by_cases h2 : db.outlets.any (fun o => o.urn == f.strip.urn) = true
      · rw [if_pos h2]
        exact hu
      · rw [if_neg h2]
        exact uniqueUrns_append_of_not_found hu (Bool.eq_false_iff.mpr h2)

/-- C1: URN is a unique natural key for outlets.  A create request
(POST /admin/outlets/new, i.e. `outlet_new`, or `OutletModel.create_outlet`)
whose (stripped) URN equals the URN of an existing outlet is rejected with
"URN already exists" and leaves the database unchanged; and both operations
preserve the no-two-rows-share-a-urn invariant on every input. -/
theorem c1_urn_unique_natural_key (db : DB) (form : OutletForm)
    (hdup : ∃ o ∈ db.outlets, o.urn = form.strip.urn)
    (hurn : form.strip.urn ≠ "")
    (hname : form.strip.outlet_name ≠ "")
    (hregion : form.strip.region ≠ "") :
    ((outlet_new db form).1 = OutletNewResult.urnExists "URN already exists" ∧
       (outlet_new db form).2 = db) ∧
    ((OutletModel.create_outlet db form).1 = CreateResult.err "URN already exists" ∧
       (OutletModel.create_outlet db form).2 = db) ∧
    (∀ db' : DB, ∀ f' : OutletForm, uniqueUrns db'.outlets →
       uniqueUrns ((outlet_new db' f').2.outlets) ∧
       uniqueUrns ((OutletModel.create_outlet db' f').2.outlets)) := by
  obtain ⟨o, ho, hoeq⟩ := hdup
  have hany : db.outlets.any (fun o => o.urn == form.strip.urn) = true := by
    simp only [List.any_eq_true]
    exact ⟨o, ho, by simp [hoeq]⟩
  have hnot : ¬ (form.strip.urn = "" ∨ form.strip.outlet_name = "" ∨ form.strip.region = "") := by
    simp [hurn, hname, hregion]
  refine ⟨?_, ?_, fun db' f' hu => create_ops_preserve_uniqueUrns db' f' hu⟩
  · simp only [outlet_new]
    rw [if_neg hnot, if_pos hany]
    exact ⟨rfl, rfl⟩
  · simp only [OutletModel.create_outlet]
    rw [if_neg hnot, if_pos hany]
    exact ⟨rfl, rfl⟩

def c1db : DB :=
  { outlets := [{ oid := 1, urn := "DCP/22/SW/ED/1000009", outlet_name := "SAMPLE OUTLET", region := "SW" }],
    nextOutletId := 2 }

def c1form : OutletForm :=
  { urn := "DCP/22/SW/ED/1000009", outlet_name := "ANOTHER OUTLET", region := "SW" }

/-- Witness for C1 at a concrete database and form. -/
theorem c1_urn_unique_natural_key_witness :
    (∃ o ∈ c1db.outlets, o.urn = c1form.strip.urn) ∧
    (((outlet_new c1db c1form).1 = OutletNewResult.urnExists "URN already exists" ∧
        (outlet_new c1db c1form).2 = c1db) ∧
     ((OutletModel.create_outlet c1db c1form).1 = CreateResult.err "URN already exists" ∧
        (OutletModel.create_outlet c1db c1form).2 = c1db) ∧
     (∀ db' : DB, ∀ f' : OutletForm, uniqueUrns db'.outlets →
        uniqueUrns ((outlet_new db' f').2.outlets) ∧
        uniqueUrns ((OutletModel.create_outlet db' f').2.outlets))) :=
  ⟨by decide, c1_urn_unique_natural_key c1db c1form (by decide) (by decide) (by decide) (by decide)⟩

/-! ## User deletion (`app_admin.user_delete`, lines 268-292) -/

/-- Outcome of a POST to /admin/users/delete/<user_id>. -/
inductive UserDeleteResult where
  | selfDelete (msg : String)
  | hasExecutions (msg : String)
  | deleted (msg : String)
deriving Repr, DecidableEq

/-- `app_admin.user_delete`: refuse to delete the session user, refuse when
the user has executions, otherwise DELETE the row. -/
def user_delete (db : DB) (session_user_id user_id : Nat) : UserDeleteResult × DB :=
  if user_id == session_user_id then
    (UserDeleteResult.selfDelete "Cannot delete your own account", db)
  else
    let execution_count := db.execs.countP (fun e => e.agent_id == user_id)
    if execution_count > 0 then
      (UserDeleteResult.hasExecutions
        ("Cannot delete user with " ++ Nat.repr execution_count ++ " executions"), db)
    else
      (UserDeleteResult.deleted "User deleted successfully",
       { db with users := db.users.filter (fun u => !(u.uid == user_id)) })

/-! ## C3: deleting a user with executions is blocked -/

/-- C3: a POST to /admin/users/delete/<user_id> for a user that is the
agent of at least one execution does not delete the user: it reports
"Cannot delete user with N executions" and leaves the database unchanged.
A user with zero executions who is not the session user is deleted:
exactly the rows with that id disappear from the users table. -/
theorem c3_user_delete_blocked_with_executions (db : DB) (session_uid user_id : Nat)
    (hns : user_id ≠ session_uid)
    (hexec : ∃ e ∈ db.execs, e.agent_id = user_id) :
    ((user_delete db session_uid user_id).1 =
        UserDeleteResult.hasExecutions
          ("Cannot delete user with " ++
            Nat.repr (db.execs.countP (fun e => e.agent_id == user_id)) ++ " executions") ∧
      (user_delete db session_uid user_id).2 = db) ∧
    (∀ db' : DB, ∀ suid uid : Nat, uid ≠ suid →
       db'.execs.countP (fun e => e.agent_id == uid) = 0 →
       (user_delete db' suid uid).1 = UserDeleteResult.deleted "User deleted successfully" ∧
       (user_delete db' suid uid).2.users = db'.users.filter (fun u => !(u.uid == uid))) := by
  constructor
  · obtain ⟨e, he, heq⟩ := hexec
    have hpos : db.execs.countP (fun e => e.agent_id == user_id) > 0 :=
      List.countP_pos_iff.mpr ⟨e, he, by simp [heq]⟩
    have hne : (user_id == session_uid) = false := by
      simp [hns]
    rw [user_delete]
    simp only [hne, Bool.false_eq_true, if_false]
    rw [if_pos hpos]
    exact ⟨rfl, rfl⟩
  · intro db' suid uid hns' hzero
    have hne : (uid == suid) = false := by
      simp [hns']
    have hnpos : ¬ (db'.execs.countP (fun e => e.agent_id == uid) > 0) := by
      omega
    rw [user_delete]
    simp only [hne, Bool.false_eq_true, if_false]
    rw [if_neg hnpos]
    exact ⟨rfl, rfl⟩

def c3db : DB :=
  { users := [{ uid := 1, username := "admin" }, { uid := 2, username := "agent2" }],
    execs := [{ eid := 1, outlet_id := 5, agent_id := 2, execution_date := 10 }],
    nextExecId := 2 }

/-- Witness for C3 at a concrete database: user 2 has one execution. -/
theorem c3_user_delete_blocked_with_executions_witness :
    (((user_delete c3db 1 2).1 =
        UserDeleteResult.hasExecutions
          ("Cannot delete user with " ++
            Nat.repr (c3db.execs.countP (fun e => e.agent_id == 2)) ++ " executions") ∧
      (user_delete c3db 1 2).2 = c3db) ∧
    (∀ db' : DB, ∀ suid uid : Nat, uid ≠ suid →
       db'.execs.countP (fun e => e.agent_id == uid) = 0 →
       (user_delete db' suid uid).1 = UserDeleteResult.deleted "User deleted successfully" ∧
       (user_delete db' suid uid).2.users = db'.users.filter (fun u => !(u.uid == uid)))) :=
  c3_user_delete_blocked_with_executions c3db 1 2 (by decide) (by decide)

/-! ## Execution creation paths
(`routes.new_execution` GET, `routes.assign_execution`,
`ExecutionModel.create_execution`) -/

/-- The Bool predicate "row is Pending for this outlet/agent pair", as in the
SQL `WHERE outlet_id = ? AND agent_id = ? AND status = 'Pending'`. -/
def isPendingFor (outlet_id agent_id : Nat) (e : ExecRow) : Bool :=
  e.outlet_id == outlet_id && e.agent_id == agent_id && e.status == "Pending"

/-- The row inserted by `INSERT INTO executions (outlet_id, agent_id,
execution_date, status) VALUES (?, ?, ?, 'Pending')`. -/
def pendingRow (rid outlet_id agent_id now : Nat) : ExecRow :=
  { eid := rid, outlet_id := outlet_id, agent_id := agent_id,
    execution_date := now, status := "Pending" }

/-- `routes.new_execution`, GET branch (lines 266-287): if no Pending
execution exists for this outlet and the session agent, insert one. -/
def new_execution_get (db : DB) (outlet_id agent_id now : Nat) : DB :=
  if db.execs.any (isPendingFor outlet_id agent_id) then
    db
  else
    { db with execs := db.execs ++ [pendingRow db.nextExecId outlet_id agent_id now],
              nextExecId := db.nextExecId + 1 }

/-- `routes.assign_execution` (lines 1262-1296): reuse the existing Pending
execution for this outlet and the session user, or insert a new one. -/
def assign_execution (db : DB) (outlet_id user_id now : Nat) : DB :=
  if db.execs.any (isPendingFor outlet_id user_id) then
    db
  else
    { db with execs := db.execs ++ [pendingRow db.nextExecId outlet_id user_id now],
              nextExecId := db.nextExecId + 1 }

/-- The `execution_data` dict accepted by `ExecutionModel.create_execution`
(absent keys are `none`). -/
structure ExecutionData where
  outlet_id : Option Nat := none
  agent_id : Option Nat := none
  execution_date : Option Nat := none
  before_image : Option String := none
  after_image : Option String := none
  latitude : Option Int := none
  longitude : Option Int := none
  notes : Option String := none
  products_available : Option Json := none
  status : Option String := none

/-- Python truthiness of `data.get(k)` for an integer field: `None` and `0`
are falsy. -/
def truthyNat : Option Nat → Bool
  | none => false
  | some n => !(n == 0)

/-- Python truthiness of `data.get(k)` for a numeric coordinate. -/
def truthyInt : Option Int → Bool
  | none => false
  | some n => !(n == 0)

/-- `ExecutionModel.create_execution` (`models.py` lines 485-556): validate
required fields (Python truthiness), validate coordinates when both are
truthy, verify the outlet and agent exist and are active, then INSERT with
`status = execution_data.get('status', 'Pending')` and
`products_available = json.dumps(execution_data.get('products_available', {}))`.
There is no check for an existing Pending execution.  `now` stands for
`datetime.now()`. -/
def ExecutionModel.create_execution (db : DB) (d : ExecutionData) (now : Nat) :
    CreateResult × DB :=
  if !(truthyNat d.outlet_id && truthyNat d.agent_id) then
    (CreateResult.err "Missing required fields: outlet_id, agent_id", db)
  else if truthyInt d.latitude && truthyInt d.longitude &&
      !(-90 ≤ d.latitude.getD 0 && d.latitude.getD 0 ≤ 90) then
    (CreateResult.err "Latitude must be between -90 and 90", db)
  else if truthyInt d.latitude && truthyInt d.longitude &&
      !(-180 ≤ d.longitude.getD 0 && d.longitude.getD 0 ≤ 180) then
    (CreateResult.err "Longitude must be between -180 and 180", db)
  else
    let oid := d.outlet_id.getD 0
    let aid := d.agent_id.getD 0
    if !(db.outlets.any (fun o => o.oid == oid && o.is_active)) then
      (CreateResult.err "Outlet not found or inactive", db)
    else if !(db.users.any (fun u => u.uid == aid && u.is_active)) then
      (CreateResult.err "Agent not found or inactive", db)
    else
      let newRow : Nat → ExecRow := fun rid =>
        { eid := rid, outlet_id := oid, agent_id := aid,
          execution_date := d.execution_date.getD now,
          before_image := d.before_image, after_image := d.after_image,
          latitude := d.latitude, longitude := d.longitude,
          notes := d.notes.getD "",
          products_available := some (d.products_available.getD (Json.obj [])),
          status := d.status.getD "Pending" }
      match dbInsertExec db newRow with
      | Except.ok db' => (CreateResult.ok db.nextExecId, db')
      | Except.error e => (CreateResult.err ("Failed to create execution: " ++ e), db)

/-! ## C2: at most one Pending execution per outlet/agent pair -/

/-- Number of Pending executions for an outlet/agent pair. -/
def countPending (db : DB) (outlet_id agent_id : Nat) : Nat :=
  db.execs.countP (isPendingFor outlet_id agent_id)

/-- The invariant claimed by the spec. -/
def atMostOnePending (db : DB) : Prop :=
  ∀ outlet_id agent_id : Nat, countPending db outlet_id agent_id ≤ 1

def c2db : DB :=
  { outlets := [{ oid := 1, urn := "DCP/1", outlet_name := "SHOP A", region := "SW" }],
    users := [{ uid := 1, username := "agent1" }],
    execs := [{ eid := 1, outlet_id := 1, agent_id := 1, execution_date := 100 }],
    nextOutletId := 2, nextExecId := 2 }

def c2data : ExecutionData := { outlet_id := some 1, agent_id := some 1 }

/-- C2 counterexample: `ExecutionModel.create_execution` inserts a second
Pending execution for a pair that already has one, so the claimed invariant
is not preserved by every inserting operation. -/
theorem c2_counterexample_create_execution_breaks_invariant :
    atMostOnePending c2db ∧
    (ExecutionModel.create_execution c2db c2data 200).1 = CreateResult.ok 2 ∧
    countPending (ExecutionModel.create_execution c2db c2data 200).2 1 1 = 2 ∧
    ¬ atMostOnePending (ExecutionModel.create_execution c2db c2data 200).2 := by
  refine ⟨?_, by decide, by decide, ?_⟩
  · intro o a
    calc countPending c2db o a ≤ c2db.execs.length := List.countP_le_length _
      _ ≤ 1 := by decide
  · intro h
    have h11 := h 1 1
    have h2 : countPending (ExecutionModel.create_execution c2db c2data 200).2 1 1 = 2 := by
      decide
    rw [h2] at h11
    exact absurd h11 (by decide)

/-- The guarded insert shared by the GET handler and `assign_execution`
preserves the invariant. -/
theorem guarded_pending_insert_preserves (db : DB) (o a t : Nat)
    (h : atMostOnePending db)
    (hno : db.execs.any (isPendingFor o a) = false) :
    atMostOnePending
      { db with execs := db.execs ++ [pendingRow db.nextExecId o a t],
                nextExecId := db.nextExecId + 1 } := by
  intro o' a'
  show (db.execs ++ [pendingRow db.nextExecId o a t]).countP (isPendingFor o' a') ≤ 1
  rw [List.countP_append]
  by_cases ho : o' = o
  · by_cases ha : a' = a
    · subst ho
      subst ha
      have hzero : db.execs.countP (isPendingFor o' a') = 0 := by
        rw [List.countP_eq_zero]
        intro e he hpe
        have hany : db.execs.any (isPendingFor o' a') = true :=
          List.any_eq_true.mpr ⟨e, he, hpe⟩
        rw [hany] at hno
        exact absurd hno (by simp)
      rw [hzero]
      have hone : List.countP (isPendingFor o' a') [pendingRow db.nextExecId o' a' t] ≤ 1 :=
        le_trans (List.countP_le_length _) (by simp)
      omega
    · have hz : List.countP (isPendingFor o' a') [pendingRow db.nextExecId o a t] = 0 := by
        rw [List.countP_eq_zero]
        intro e he
        have he' : e = pendingRow db.nextExecId o a t := by simpa using he
        subst he'
        simp only [isPendingFor, pendingRow, beq_iff_eq, Bool.and_eq_true, decide_eq_true_eq, not_and]
        omega
      rw [hz]
      have hle := h o' a'
      rw [countPending] at hle
      omega
  · have hz : List.countP (isPendingFor o' a') [pendingRow db.nextExecId o a t] = 0 := by
      rw [List.countP_eq_zero]
      intro e he
      have he' : e = pendingRow db.nextExecId o a t := by simpa using he
      subst he'
      simp only [isPendingFor, pendingRow, beq_iff_eq, Bool.and_eq_true, decide_eq_true_eq, not_and]
      omega
    rw [hz]
    have hle := h o' a'
    rw [countPending] at hle
    omega

/-- C2 amended: the two route paths that create Pending executions
(`new_execution` GET and `assign_execution`) insert only after checking that
no Pending execution exists for the (outlet_id, agent_id) pair, so they
preserve the at-most-one-Pending invariant; `ExecutionModel.create_execution`
(and the bulk upload) insert without that check and do not preserve it. -/
theorem c2_amended_route_guards_preserve_invariant (db : DB)
    (outlet_id agent_id user_id now now' : Nat)
    (h : atMostOnePending db) :
    atMostOnePending (new_execution_get db outlet_id agent_id now) ∧
    atMostOnePending (assign_execution db outlet_id user_id now') := by
  constructor
  · rw [new_execution_get]
    by_cases hex : db.execs.any (isPendingFor outlet_id agent_id) = true
    · rw [if_pos hex]
      exact h
    · rw [if_neg hex]
      exact guarded_pending_insert_preserves db outlet_id agent_id now h
        (Bool.eq_false_iff.mpr hex)
  · rw [assign_execution]
    by_cases hex : db.execs.any (isPendingFor outlet_id user_id) = true
    · rw [if_pos hex]
      exact h
    · rw [if_neg hex]
      exact guarded_pending_insert_preserves db outlet_id user_id now' h
        (Bool.eq_false_iff.mpr hex)

/-- Witness for the amended C2 at a concrete database. -/
theorem c2_amended_route_guards_preserve_invariant_witness :
    atMostOnePending (new_execution_get c2db 1 1 300) ∧
    atMostOnePending (assign_execution c2db 1 1 300) :=
  c2_amended_route_guards_preserve_invariant c2db 1 1 1 300 300
    (fun o a => le_trans (List.countP_le_length _) (by decide))

/-! ## The web execution form (`routes.new_execution`, POST branch) -/

/-- `pykes.utils.DANGOTE_PRODUCTS`, the product checklist of the web form. -/
def DANGOTE_PRODUCTS : List String :=
  ["Table", "Chair", "Parasol", "Parasol Stand", "Tarpaulin", "Hawker Jacket", "Cups"]

/-- `product.replace(' ', '_')`. -/
def pyReplaceSpace (s : String) : String :=
  String.mk (s.data.map (fun c => if c = ' ' then '_' else c))

/-- The product-availability map built by the POST handler:
`products[product] = request.form.get(field_name, "No") == "Yes"`. -/
def webFormProducts (form : String → Option String) : Json :=
  Json.obj (DANGOTE_PRODUCTS.map (fun p =>
    (p, Json.bool ((form ("product_" ++ pyReplaceSpace p)).getD "No" == "Yes"))))

/-- The non-product form data read by the POST handler. -/
structure ExecForm where
  latitude : Option Int := none
  longitude : Option Int := none
  notes : String := ""
  fields : String → Option String := fun _ => none

/-- The UPDATE applied to the existing Pending row by the POST handler. -/
def completeExecRow (now : Nat) (before_filename after_filename : Option String)
    (form : ExecForm) (products : Json) (e : ExecRow) : ExecRow :=
  { e with before_image := before_filename, after_image := after_filename,
           latitude := form.latitude, longitude := form.longitude,
           notes := form.notes, products_available := some products,
           status := "Completed", execution_date := now }

/-- `routes.new_execution`, POST branch (lines 289-352): update the agent's
existing Pending execution to Completed (or insert a Completed one), then
DELETE every Pending execution for the same outlet whose agent differs from
the submitting agent, and commit both in one transaction. -/
def new_execution_post (db : DB) (outlet_id agent_id now : Nat)
    (before_filename after_filename : Option String) (form : ExecForm) : DB :=
  let products := webFormProducts form.fields
  let db1 :=
    match db.execs.find? (isPendingFor outlet_id agent_id) with
    | some ex =>
        { db with execs := db.execs.map (fun e : ExecRow =>
            if e.eid == ex.eid then
              completeExecRow now before_filename after_filename form products e
            else e) }
    | none =>
        let completedRow : ExecRow :=
          { eid := db.nextExecId, outlet_id := outlet_id,
            agent_id := agent_id, execution_date := now,
            before_image := before_filename, after_image := after_filename,
            latitude := form.latitude, longitude := form.longitude,
            notes := form.notes, products_available := some products,
            status := "Completed" }
        { db with execs := db.execs ++ [completedRow],
                  nextExecId := db.nextExecId + 1 }
  { db1 with execs := db1.execs.filter (fun e =>
      !(e.outlet_id == outlet_id && e.status == "Pending" && !(e.agent_id == agent_id))) }

/-! ## C9: the POST handler clears other agents' Pending executions -/

/-- C9: after `new_execution_post`, no execution for the submitted outlet is
left Pending under a different agent: the final DELETE removes exactly those
rows inside the same state transition. -/
theorem c9_post_clears_other_agents_pending (db : DB) (outlet_id agent_id now : Nat)
    (bf af : Option String) (form : ExecForm) :
    (new_execution_post db outlet_id agent_id now bf af form).execs.filter
      (fun e => e.outlet_id == outlet_id && e.status == "Pending" &&
        !(e.agent_id == agent_id)) = [] := by
  rw [new_execution_post, List.filter_eq_nil_iff]
  intro e he hbad
  have hkeep : (!(e.outlet_id == outlet_id && e.status == "Pending" &&
      !(e.agent_id == agent_id))) = true := (List.mem_filter.mp he).2
  rw [hbad] at hkeep
  exact absurd hkeep (by simp)

/-! ## Bulk execution upload (`app_admin.execution_upload`, lines 787-1086)

One mapped spreadsheet row is processed by `execution_upload_row`; the
route folds it over all rows, collecting per-row outcomes.  Date strings
already parsed to seconds stand in for `datetime.strptime` (a row whose
Date cell is absent or unparseable gets `datetime.now()`, i.e. `none`). -/

/-- Python's `str.lower()`. -/
def pyLower (s : String) : String :=
  String.mk (s.data.map Char.toLower)

/-- Does the second list start with the first? -/
def startsWithChars : List Char → List Char → Bool
  | [], _ => true
  | _ :: _, [] => false
  | a :: as, b :: bs => a == b && startsWithChars as bs

/-- Is the first list a contiguous sublist of the second? -/
def hasSubChars (needle : List Char) : List Char → Bool
  | [] => startsWithChars needle []
  | b :: bs => startsWithChars needle (b :: bs) || hasSubChars needle bs

/-- Python's `needle in hay` on strings: substring containment. -/
def containsSub (needle hay : String) : Bool :=
  hasSubChars needle.data hay.data

/-- One spreadsheet row after column mapping (`mapped_row`); `none` for a
cell whose mapped column is absent. -/
structure UploadRow where
  urn : String := ""
  retail_point_name : String := ""
  customer_name : String := ""
  address : String := ""
  phone : String := ""
  region : Option String := none
  state : String := ""
  lga : String := ""
  outlet_type : Option String := none
  date : Option Nat := none
  status : Option String := none
  notes : String := ""
  table_cell : String := ""
  chair_cell : String := ""
  parasol_cell : String := ""
  tarpaulin_cell : String := ""
  hawker_jacket_cell : String := ""
deriving Repr, DecidableEq

/-- `str(row.get(product, '')).strip().lower() in ['true', '1', 'yes', 'y',
'available', 'present']`. -/
def truthyCell (v : String) : Bool :=
  ["true", "1", "yes", "y", "available", "present"].contains (pyLower (pyStrip v))

/-- The products dict built by the upload route for the five products. -/
def uploadProducts (r : UploadRow) : Json :=
  Json.obj [("Table", Json.bool (truthyCell r.table_cell)),
            ("Chair", Json.bool (truthyCell r.chair_cell)),
            ("Parasol", Json.bool (truthyCell r.parasol_cell)),
            ("Tarpaulin", Json.bool (truthyCell r.tarpaulin_cell)),
            ("Hawker Jacket", Json.bool (truthyCell r.hawker_jacket_cell))]

/-- The duplicate probe: any execution joined to an outlet matching the URN
or the outlet name, dated on or after the cutoff (`now` minus 7 days). -/
def hasRecentExecution (db : DB) (urn outlet_name : String) (cutoff : Nat) : Bool :=
  db.execs.any (fun e =>
    db.outlets.any (fun o =>
      o.oid == e.outlet_id && (o.urn == urn || o.outlet_name == outlet_name)) &&
    decide (cutoff ≤ e.execution_date))

/-- Seven days in seconds (`timedelta(days=7)`). -/
def SEVEN_DAYS : Nat := 7 * 24 * 60 * 60

/-- Per-row outcome of the upload loop (errors are accumulated by the route
rather than aborting the file). -/
inductive UploadOutcome where
  | missingData (err : String)
  | duplicateSkipped (msg : String)
  | outletCreateFailed (err : String)
  | noActiveUser (err : String)
  | rowError (err : String)
  | imported (execId : Nat) (outletCreated : Bool)
deriving Repr, DecidableEq

/-- Agent selection of the upload route: the first active admin, else the
first active user. -/
def firstUploadAgent (db : DB) : Option Nat :=
  match db.users.find? (fun u => u.role == "admin" && u.is_active) with
  | some u => some u.uid
  | none => (db.users.find? (fun u => u.is_active)).map (fun u => u.uid)

/-- The tail of the row processing once an outlet id is in hand: pick the
agent, read `Status` (default `'Completed'`), `Notes`, the parsed date
(default `now`), build the products dict, and INSERT.  A failed INSERT is
caught by the per-row `except` and recorded; earlier effects of the row
(an outlet created for it) are not rolled back. -/
def uploadExecRow (oid aid now : Nat) (r : UploadRow) (rid : Nat) : ExecRow :=
  { eid := rid, outlet_id := oid, agent_id := aid,
    execution_date := r.date.getD now,
    notes := pyStrip r.notes,
    products_available := some (uploadProducts r),
    status := pyStrip (r.status.getD "Completed") }

def uploadInsertExec (db : DB) (oid now : Nat) (r : UploadRow)
    (outletCreated : Bool) : UploadOutcome × DB :=
  match firstUploadAgent db with
  | none => (UploadOutcome.noActiveUser "No active user found to assign as agent", db)
  | some aid =>
      match dbInsertExec db (uploadExecRow oid aid now r) with
      | Except.ok db' => (UploadOutcome.imported db.nextExecId outletCreated, db')
      | Except.error e => (UploadOutcome.rowError e, db)

/-- The outlet auto-created by the upload route for an unknown URN: outlet
fields from the row, `Outlet Type` defaulting to `'Shop'` and `Region`
defaulting to `'SW'` (also when present but blank). -/
def uploadNewOutlet (urn outlet_name : String) (r : UploadRow) (oid : Nat) : Outlet :=
  let region0 := pyStrip (r.region.getD "SW")
  let region := if region0 = "" then "SW" else region0
  { oid := oid, urn := urn, outlet_name := outlet_name,
    customer_name := pyStrip r.customer_name, address := pyStrip r.address,
    phone := pyStrip r.phone,
    outlet_type := pyStrip (r.outlet_type.getD "Shop"),
    local_govt := pyStrip r.lga, state := pyStrip r.state, region := region }

/-- `execution_upload`, body of the per-row loop (lines 873-1034). -/
def execution_upload_row (db : DB) (now : Nat) (r : UploadRow) : UploadOutcome × DB :=
  let urn := pyStrip r.urn
  let outlet_name := pyStrip r.retail_point_name
  if urn = "" ∨ outlet_name = "" then
    (UploadOutcome.missingData "Missing required data", db)
  else if !(containsSub "new" (pyLower urn)) &&
      hasRecentExecution db urn outlet_name (now - SEVEN_DAYS) then
    (UploadOutcome.duplicateSkipped "Duplicate entry in the last 7 days", db)
  else
    match db.outlets.find? (fun o => o.urn == urn) with
    | some o => uploadInsertExec db o.oid now r false
    | none =>
        match dbInsertOutlet db (uploadNewOutlet urn outlet_name r) with
        | Except.error e => (UploadOutcome.outletCreateFailed e, db)
        | Except.ok db1 => uploadInsertExec db1 db.nextOutletId now r true

/-! ## C8: the 7-day duplicate check and its bypass for 'new' URNs -/

theorem uploadInsertExec_never_duplicateSkipped (db : DB) (oid now : Nat)
    (r : UploadRow) (b : Bool) (msg : String) :
    (uploadInsertExec db oid now r b).1 ≠ UploadOutcome.duplicateSkipped msg := by
  rw [uploadInsertExec]
  split
  · simp
  · split
    · simp
    · simp

/-- C8: in the bulk execution upload, a row whose stripped URN does not
contain "new" (case-insensitively) is skipped with no change to the
database whenever some execution for an outlet matching the URN or outlet
name lies within the last 7 days; a row whose URN does contain "new" is
never skipped by that duplicate check, whatever the database holds. -/
theorem c8_seven_day_duplicate_check_and_new_bypass (db : DB) (now : Nat) (r : UploadRow)
    (hurn : pyStrip r.urn ≠ "") (hname : pyStrip r.retail_point_name ≠ "") :
    (containsSub "new" (pyLower (pyStrip r.urn)) = false →
      hasRecentExecution db (pyStrip r.urn) (pyStrip r.retail_point_name)
          (now - SEVEN_DAYS) = true →
      (execution_upload_row db now r).1 =
          UploadOutcome.duplicateSkipped "Duplicate entry in the last 7 days" ∧
      (execution_upload_row db now r).2 = db) ∧
    (containsSub "new" (pyLower (pyStrip r.urn)) = true →
      ∀ msg, (execution_upload_row db now r).1 ≠ UploadOutcome.duplicateSkipped msg) := by
  have hcond : ¬ (pyStrip r.urn = "" ∨ pyStrip r.retail_point_name = "") := by
    simp [hurn, hname]
  constructor
  · intro hnonew hrecent
    simp only [execution_upload_row]
    rw [if_neg hcond]
    have hdup : (!(containsSub "new" (pyLower (pyStrip r.urn))) &&
        hasRecentExecution db (pyStrip r.urn) (pyStrip r.retail_point_name)
          (now - SEVEN_DAYS)) = true := by
      rw [hnonew, hrecent]
      rfl
    rw [if_pos hdup]
    exact ⟨rfl, rfl⟩
  · intro hnew msg
    simp only [execution_upload_row]
    rw [if_neg hcond]
    have hdup : ¬ ((!(containsSub "new" (pyLower (pyStrip r.urn))) &&
        hasRecentExecution db (pyStrip r.urn) (pyStrip r.retail_point_name)
          (now - SEVEN_DAYS)) = true) := by
      rw [hnew]
      simp
    rw [if_neg hdup]
    split
    · exact uploadInsertExec_never_duplicateSkipped _ _ _ _ _ _
    · split
      · simp
      · exact uploadInsertExec_never_duplicateSkipped _ _ _ _ _ _

def c8db : DB :=
  { outlets := [{ oid := 1, urn := "DCP/8", outlet_name := "SHOP B", region := "SW" }],
    users := [{ uid := 1, username := "admin", role := "admin" }],
    execs := [{ eid := 1, outlet_id := 1, agent_id := 1, execution_date := 900000,
                status := "Completed" }],
    nextOutletId := 2, nextExecId := 2 }

def c8row : UploadRow := { urn := "DCP/8", retail_point_name := "SHOP B" }

/-- Witness for C8: a matching execution 100000 seconds old triggers the
skip; the second part holds for a URN containing "new". -/
theorem c8_seven_day_duplicate_check_and_new_bypass_witness :
    ((containsSub "new" (pyLower (pyStrip c8row.urn)) = false →
      hasRecentExecution c8db (pyStrip c8row.urn) (pyStrip c8row.retail_point_name)
          (1000000 - SEVEN_DAYS) = true →
      (execution_upload_row c8db 1000000 c8row).1 =
          UploadOutcome.duplicateSkipped "Duplicate entry in the last 7 days" ∧
      (execution_upload_row c8db 1000000 c8row).2 = c8db) ∧
    (containsSub "new" (pyLower (pyStrip c8row.urn)) = true →
      ∀ msg, (execution_upload_row c8db 1000000 c8row).1 ≠
        UploadOutcome.duplicateSkipped msg)) ∧
    containsSub "new" (pyLower (pyStrip c8row.urn)) = false ∧
    hasRecentExecution c8db (pyStrip c8row.urn) (pyStrip c8row.retail_point_name)
        (1000000 - SEVEN_DAYS) = true :=
  ⟨c8_seven_day_duplicate_check_and_new_bypass c8db 1000000 c8row
      (by decide) (by decide),
   by decide, by decide⟩

/-! ## C5: the status values of execution rows -/

/-- Every execution row's status lies in the schema enum. -/
def statusValidList (l : List ExecRow) : Prop :=
  ∀ e ∈ l, e.status ∈ VALID_STATUSES

/-- The status invariant on a database state. -/
def statusValidInvariant (db : DB) : Prop :=
  statusValidList db.execs

theorem dbInsertExec_preserves_statusValid {db db' : DB} {mk : Nat → ExecRow}
    (h : statusValidInvariant db) (hok : dbInsertExec db mk = Except.ok db') :
    statusValidInvariant db' := by
  simp only [dbInsertExec] at hok
  split at hok
  case isTrue hc =>
    cases hok
    intro e he
    rcases List.mem_append.mp he with h1 | h2
    · exact h e h1
    · have he2 : e = mk db.nextExecId := by simpa using h2
      subst he2
      simpa using hc
  case isFalse hc =>
    cases hok

theorem dbInsertOutlet_execs_unchanged {db db' : DB} {mk : Nat → Outlet}
    (hok : dbInsertOutlet db mk = Except.ok db') : db'.execs = db.execs := by
  simp only [dbInsertOutlet] at hok
  split at hok
  · cases hok
  · split at hok
    · cases hok
    · split at hok
      · cases hok
      · split at hok
        · cases hok
        · cases hok
          rfl

theorem uploadInsertExec_preserves_statusValid (db : DB) (oid now : Nat)
    (r : UploadRow) (b : Bool) (h : statusValidInvariant db) :
    statusValidInvariant (uploadInsertExec db oid now r b).2 := by
  rw [uploadInsertExec]
  split
  · exact h
  · split
    next db' heq => exact dbInsertExec_preserves_statusValid h heq
    next e heq => exact h

theorem execution_upload_row_preserves_statusValid (db : DB) (now : Nat)
    (r : UploadRow) (h : statusValidInvariant db) :
    statusValidInvariant (execution_upload_row db now r).2 := by
  simp only [execution_upload_row]
  split
  · exact h
  · split
    · exact h
    · split
      · exact uploadInsertExec_preserves_statusValid _ _ _ _ _ h
      · split
        · exact h
        next db1 heq =>
          apply uploadInsertExec_preserves_statusValid
          rw [statusValidInvariant, statusValidList, dbInsertOutlet_execs_unchanged heq]
          exact h

theorem create_execution_preserves_statusValid (db : DB) (d : ExecutionData)
    (now : Nat) (h : statusValidInvariant db) :
    statusValidInvariant (ExecutionModel.create_execution db d now).2 := by
  simp only [ExecutionModel.create_execution]
  split
  · exact h
  · split
    · exact h
    · split
      · exact h
      · split
        · exact h
        · split
          · exact h
          · split
            next db' heq => exact dbInsertExec_preserves_statusValid h heq
            next e heq => exact h

theorem new_execution_get_preserves_statusValid (db : DB) (o a t : Nat)
    (h : statusValidInvariant db) :
    statusValidInvariant (new_execution_get db o a t) := by
  rw [new_execution_get]
  split
  · exact h
  · intro e he
    rcases List.mem_append.mp he with h1 | h2
    · exact h e h1
    · have he2 : e = pendingRow db.nextExecId o a t := by simpa using h2
      subst he2
      simp [pendingRow, VALID_STATUSES]

theorem assign_execution_preserves_statusValid (db : DB) (o u t : Nat)
    (h : statusValidInvariant db) :
    statusValidInvariant (assign_execution db o u t) := by
  rw [assign_execution]
  split
  · exact h
  · intro e he
    rcases List.mem_append.mp he with h1 | h2
    · exact h e h1
    · have he2 : e = pendingRow db.nextExecId o u t := by simpa using h2
      subst he2
      simp [pendingRow, VALID_STATUSES]

theorem new_execution_post_preserves_statusValid (db : DB) (o a t : Nat)
    (bf af : Option String) (form : ExecForm) (h : statusValidInvariant db) :
    statusValidInvariant (new_execution_post db o a t bf af form) := by
  simp only [new_execution_post]
  split
  next ex hfind =>
    intro e he
    have he1 := (List.mem_filter.mp he).1
    rcases List.mem_map.mp he1 with ⟨e', he', rfl⟩
    by_cases hc : (e'.eid == ex.eid) = true
    · rw [if_pos hc]
      simp [completeExecRow, VALID_STATUSES]
    · rw [if_neg hc]
      exact h e' he'
  next hfind =>
    intro e he
    have he1 := (List.mem_filter.mp he).1
    rcases List.mem_append.mp he1 with h1 | h2
    · exact h e h1
    · have he2 : e.status = "Completed" := by
        have : e ∈ [_] := h2
        simp at this
        rw [this]
      rw [he2]
      simp [VALID_STATUSES]

def c5db : DB := { users := [{ uid := 1, username := "boss", role := "admin" }] }

def c5row : UploadRow :=
  { urn := "NEW-OUTLET-1", retail_point_name := "SHOP C", status := some "In_Progress" }

/-- C5 counterexample: the bulk upload inserts the Status cell of the file
verbatim, so a row with Status `In_Progress` yields an execution whose
status is neither `Pending` nor `Completed`. -/
theorem c5_counterexample_upload_inserts_in_progress :
    (execution_upload_row c5db 1000 c5row).1 = UploadOutcome.imported 1 true ∧
    (execution_upload_row c5db 1000 c5row).2.execs.map ExecRow.status = ["In_Progress"] ∧
    ¬ (∀ e ∈ (execution_upload_row c5db 1000 c5row).2.execs,
        e.status = "Pending" ∨ e.status = "Completed") := by
  refine ⟨by decide, by decide, ?_⟩
  intro hall
  have h2 : ∀ s ∈ (execution_upload_row c5db 1000 c5row).2.execs.map ExecRow.status,
      s = "Pending" ∨ s = "Completed" := by
    intro s hs
    rcases List.mem_map.mp hs with ⟨e, he, rfl⟩
    exact hall e he
  have h3 := h2 "In_Progress" (by decide)
  rcases h3 with h | h
  · exact absurd h (by decide)
  · exact absurd h (by decide)

/-- C5 amended: in every reachable state the status of an execution row is
one of the four schema enum values `Pending`, `In_Progress`, `Completed`,
`Cancelled` (`VALID_STATUSES` and the `status_valid` CHECK constraint):
every operation that writes executions preserves this. -/
theorem c5_amended_status_in_schema_enum (db : DB) (d : ExecutionData)
    (r : UploadRow) (o a u t t2 t3 t4 t5 : Nat) (bf af : Option String)
    (form : ExecForm) (h : statusValidInvariant db) :
    statusValidInvariant (new_execution_get db o a t) ∧
    statusValidInvariant (assign_execution db o u t2) ∧
    statusValidInvariant (new_execution_post db o a t3 bf af form) ∧
    statusValidInvariant (ExecutionModel.create_execution db d t4).2 ∧
    statusValidInvariant (execution_upload_row db t5 r).2 :=
  ⟨new_execution_get_preserves_statusValid db o a t h,
   assign_execution_preserves_statusValid db o u t2 h,
   new_execution_post_preserves_statusValid db o a t3 bf af form h,
   create_execution_preserves_statusValid db d t4 h,
   execution_upload_row_preserves_statusValid db t5 r h⟩

/-- Witness for the amended C5 at concrete inputs. -/
theorem c5_amended_status_in_schema_enum_witness :
    statusValidInvariant (new_execution_get c5db 1 1 10) ∧
    statusValidInvariant (assign_execution c5db 1 1 10) ∧
    statusValidInvariant (new_execution_post c5db 1 1 10 none none {}) ∧
    statusValidInvariant (ExecutionModel.create_execution c5db {} 10).2 ∧
    statusValidInvariant (execution_upload_row c5db 10 c5row).2 :=
  c5_amended_status_in_schema_enum c5db {} c5row 1 1 1 10 10 10 10 10 none none {}
    (by intro e he; simp [c5db] at he)

/-! ## C6: `products_available` as a boolean map -/

/-- Is this JSON value an object all of whose values are booleans, i.e. the
encoding of a finite map from product name to boolean? -/
def isBoolMapB : Json → Bool
  | Json.obj kvs => kvs.all (fun kv =>
      match kv.2 with
      | Json.bool _ => true
      | _ => false)
  | _ => false

theorem webFormProducts_isBoolMap (form : String → Option String) :
    isBoolMapB (webFormProducts form) = true := by
  rw [webFormProducts]
  simp only [isBoolMapB]
  rw [List.all_eq_true]
  intro kv hkv
  rcases List.mem_map.mp hkv with ⟨p, hp, rfl⟩
  rfl

theorem uploadProducts_isBoolMap (r : UploadRow) :
    isBoolMapB (uploadProducts r) = true := rfl

theorem dbInsertExec_execs_shape {db db' : DB} {mk : Nat → ExecRow}
    (hok : dbInsertExec db mk = Except.ok db') :
    db'.execs = db.execs ++ [mk db.nextExecId] := by
  simp only [dbInsertExec] at hok
  split at hok
  · cases hok
    rfl
  · cases hok

theorem create_execution_new_rows_products (db : DB) (d : ExecutionData) (now : Nat) :
    ∀ e ∈ (ExecutionModel.create_execution db d now).2.execs,
      e ∈ db.execs ∨
      e.products_available = some (d.products_available.getD (Json.obj [])) := by
  simp only [ExecutionModel.create_execution]
  split
  · exact fun e he => Or.inl he
  · split
    · exact fun e he => Or.inl he
    · split
      · exact fun e he => Or.inl he
      · split
        · exact fun e he => Or.inl he
        · split
          · exact fun e he => Or.inl he
          · split
            next db' heq =>
              intro e he
              rw [show ((CreateResult.ok db.nextExecId, db') : CreateResult × DB).2 = db'
                from rfl] at he
              rw [dbInsertExec_execs_shape heq] at he
              rcases List.mem_append.mp he with h1 | h2
              · exact Or.inl h1
              · have he2 := List.mem_singleton.mp h2
                subst he2
                exact Or.inr rfl
            next e heq => exact fun e he => Or.inl he

def c6db : DB :=
  { outlets := [{ oid := 1, urn := "DCP/6", outlet_name := "SHOP D", region := "SW" }],
    users := [{ uid := 1, username := "agentx" }],
    nextOutletId := 2 }

def c6data : ExecutionData :=
  { outlet_id := some 1, agent_id := some 1,
    products_available := some (Json.obj [("Table", Json.str "yes")]) }

/-- C6 counterexample: `ExecutionModel.create_execution` JSON-encodes the
caller-supplied `products_available` dict without validation, so a call with
a string value stores a JSON object that is not a boolean map. -/
theorem c6_counterexample_create_execution_nonboolean_products :
    (ExecutionModel.create_execution c6db c6data 50).1 = CreateResult.ok 1 ∧
    (ExecutionModel.create_execution c6db c6data 50).2.execs.map
        (fun e => e.products_available.map isBoolMapB) = [some false] :=
  ⟨by decide, by decide⟩

/-- C6 amended: the web execution form and the bulk upload always build
all-boolean product maps, and `ExecutionModel.create_execution` stores an
all-boolean map exactly when the caller supplies one (the absent-key default
`{}` included); it applies no validation of its own. -/
theorem c6_amended_products_boolean_maps (form : String → Option String)
    (r : UploadRow) (db : DB) (d : ExecutionData) (now : Nat)
    (hin : isBoolMapB (d.products_available.getD (Json.obj [])) = true) :
    isBoolMapB (webFormProducts form) = true ∧
    isBoolMapB (uploadProducts r) = true ∧
    (∀ e ∈ (ExecutionModel.create_execution db d now).2.execs,
       e ∈ db.execs ∨
       ∃ j, e.products_available = some j ∧ isBoolMapB j = true) := by
  refine ⟨webFormProducts_isBoolMap form, uploadProducts_isBoolMap r, ?_⟩
  intro e he
  rcases create_execution_new_rows_products db d now e he with h1 | h2
  · exact Or.inl h1
  · exact Or.inr ⟨d.products_available.getD (Json.obj []), h2, hin⟩

/-- Witness for the amended C6 at concrete inputs. -/
theorem c6_amended_products_boolean_maps_witness :
    isBoolMapB (webFormProducts (fun _ => none)) = true ∧
    isBoolMapB (uploadProducts c5row) = true ∧
    (∀ e ∈ (ExecutionModel.create_execution c6db {} 50).2.execs,
       e ∈ c6db.execs ∨
       ∃ j, e.products_available = some j ∧ isBoolMapB j = true) :=
  c6_amended_products_boolean_maps (fun _ => none) c5row c6db {} 50 (by decide)

/-! ## C4: import routines: alias matching, upsert by URN, error accumulation -/

/-- The static alias table of `execution_upload` (`app_admin.py` 821-839). -/
def column_mapping : List (String × List String) :=
  [("URN", ["URN", "urn", "Urn", "URN Code", "Outlet URN"]),
   ("Retail Point Name", ["Retail Point Name", "Outlet Name", "Shop Name", "Point Name", "Name"]),
   ("Customer Name", ["Customer Name", "Customer", "Owner Name", "Owner"]),
   ("Address", ["Address", "Location", "Full Address"]),
   ("Phone", ["Phone", "Phone Number", "Contact", "Mobile"]),
   ("Region", ["Region", "Zone"]),
   ("State", ["State"]),
   ("LGA", ["LGA", "Local Govt", "Local Government", "Local Government Area"]),
   ("Outlet Type", ["Outlet Type", "Type", "Shop Type"]),
   ("Date", ["Date", "Execution Date", "Visit Date"]),
   ("Status", ["Status", "Execution Status"]),
   ("Notes", ["Notes", "Comments", "Remarks"]),
   ("Table", ["Table"]),
   ("Chair", ["Chair"]),
   ("Parasol", ["Parasol"]),
   ("Tarpaulin", ["Tarpaulin"]),
   ("Hawker Jacket", ["Hawker Jacket"])]

/-- `mapped_columns` of `execution_upload` (lines 842-847): for each
standard column, the first alias present among the file columns. -/
def mapped_columns (fileCols : List String) : List (String × String) :=
  column_mapping.filterMap (fun sc =>
    (sc.2.find? (fun c => fileCols.contains c)).map (fun c => (sc.1, c)))

/-- One row of an uploaded outlet report (`app_reports.process_outlet_data`,
fields via `row.get(k, '')`). -/
structure OutletReportRow where
  urn : String := ""
  outlet_name : String := ""
  address : String := ""
  phone : String := ""
  outlet_type : String := ""
  region : String := ""
  state : String := ""
  lga : String := ""
deriving Repr, DecidableEq

/-- The per-file counters and detail list accumulated by the import loop. -/
structure ImportStats where
  imported : Nat := 0
  updated : Nat := 0
  skipped : Nat := 0
  errors : Nat := 0
  details : List String := []
deriving Repr, DecidableEq

/-- The UPDATE arm of `process_outlet_data` (CHECK constraints enforced on
the updated row, a failure raising into the per-row handler). -/
def updateOutletFields (row : OutletReportRow) (urn : String) (o : Outlet) : Outlet :=
  if o.urn == urn then
    { o with outlet_name := pyStrip row.outlet_name,
             address := pyStrip row.address, phone := pyStrip row.phone,
             outlet_type := pyStrip row.outlet_type,
             local_govt := pyStrip row.lga, state := pyStrip row.state,
             region := pyStrip row.region }
  else o

def dbUpdateOutletByUrn (db : DB) (row : OutletReportRow) (urn : String) :
    Except String DB :=
  if pyStrip row.outlet_name = "" then
    Except.error "CHECK constraint failed: outlet_name_length"
  else if pyStrip row.region = "" then
    Except.error "CHECK constraint failed: region_required"
  else
    Except.ok { db with outlets := db.outlets.map (updateOutletFields row urn) }

/-- The outlet INSERTed for an unseen URN by `process_outlet_data`. -/
def reportOutlet (urn outlet_name : String) (row : OutletReportRow) (oid : Nat) : Outlet :=
  { oid := oid, urn := urn, outlet_name := outlet_name,
    address := pyStrip row.address, phone := pyStrip row.phone,
    outlet_type := pyStrip row.outlet_type, local_govt := pyStrip row.lga,
    state := pyStrip row.state, region := pyStrip row.region }

/-- `app_reports.process_outlet_data` (lines 312-361), body of the per-row
loop: skip blank keys, update the outlet whose URN matches, insert when none
matches, and turn any raised error into `errors += 1` plus a detail line. -/
def process_outlet_row (acc : DB × ImportStats) (row : OutletReportRow) :
    DB × ImportStats :=
  let db := acc.1
  let st := acc.2
  let urn := pyStrip row.urn
  let outlet_name := pyStrip row.outlet_name
  if urn = "" ∨ outlet_name = "" then
    (db, { st with skipped := st.skipped + 1 })
  else
    match db.outlets.find? (fun o => o.urn == urn) with
    | some _ =>
        match dbUpdateOutletByUrn db row urn with
        | Except.ok db' =>
            (db', { st with updated := st.updated + 1,
                            details := st.details ++ ["Updated outlet: " ++ outlet_name] })
        | Except.error e =>
            (db, { st with errors := st.errors + 1,
                           details := st.details ++ ["Error processing row " ++ urn ++ ": " ++ e] })
    | none =>
        match dbInsertOutlet db (reportOutlet urn outlet_name row) with
        | Except.ok db' =>
            (db', { st with imported := st.imported + 1,
                            details := st.details ++ ["Imported new outlet: " ++ outlet_name] })
        | Except.error e =>
            (db, { st with errors := st.errors + 1,
                           details := st.details ++ ["Error processing row " ++ urn ++ ": " ++ e] })

/-- The whole import loop: every row is processed, failures notwithstanding. -/
def process_outlet_data (db : DB) (rows : List OutletReportRow) : DB × ImportStats :=
  rows.foldl process_outlet_row (db, {})

/-- Every row lands in exactly one of the four counters. -/
def statTotal (st : ImportStats) : Nat :=
  st.imported + st.updated + st.skipped + st.errors

theorem dbUpdateOutletByUrn_length {db db' : DB} {row : OutletReportRow} {urn : String}
    (hok : dbUpdateOutletByUrn db row urn = Except.ok db') :
    db'.outlets.length = db.outlets.length := by
  simp only [dbUpdateOutletByUrn] at hok
  split at hok
  · cases hok
  · split at hok
    · cases hok
    · cases hok
      simp

theorem dbInsertOutlet_outlets_shape {db db' : DB} {mk : Nat → Outlet}
    (hok : dbInsertOutlet db mk = Except.ok db') :
    db'.outlets = db.outlets ++ [mk db.nextOutletId] := by
  simp only [dbInsertOutlet] at hok
  split at hok
  · cases hok
  · split at hok
    · cases hok
    · split at hok
      · cases hok
      · split at hok
        · cases hok
        · cases hok
          rfl

theorem process_outlet_row_total (acc : DB × ImportStats) (row : OutletReportRow) :
    statTotal (process_outlet_row acc row).2 = statTotal acc.2 + 1 := by
  simp only [process_outlet_row]
  split
  · simp only [statTotal]
    omega
  · split
    · split
      · simp only [statTotal]
        omega
      · simp only [statTotal]
        omega
    · split
      · simp only [statTotal]
        omega
      · simp only [statTotal]
        omega

theorem process_fold_total (rows : List OutletReportRow) :
    ∀ acc : DB × ImportStats,
      statTotal (rows.foldl process_outlet_row acc).2 = statTotal acc.2 + rows.length := by
  induction rows with
  | nil =>
      intro acc
      simp
  | cons r rs ih =>
      intro acc
      rw [List.foldl_cons, ih, process_outlet_row_total]
      simp only [List.length_cons]
      omega

/-- C4: the import routines (i) match file columns against the static alias
table, e.g. `URN Code` and `Outlet URN` both map to `URN`; (ii) for each
non-blank data row either update the existing outlet whose URN matches
(outlet count unchanged) or insert a new outlet when none matches; a per-row
failure is recorded in the error counter without touching the tables; and
(iii) the loop never aborts: over any row list, the four counters sum to the
number of rows. -/
theorem c4_import_alias_upsert_error_accumulation (db : DB) (st : ImportStats)
    (row : OutletReportRow)
    (hurn : pyStrip row.urn ≠ "") (hname : pyStrip row.outlet_name ≠ "") :
    ((mapped_columns ["URN Code", "Outlet Name"]).lookup "URN" = some "URN Code" ∧
     (mapped_columns ["Outlet URN", "Name"]).lookup "URN" = some "Outlet URN" ∧
     (mapped_columns ["Serial"]).lookup "URN" = none) ∧
    (∀ o : Outlet, db.outlets.find? (fun x => x.urn == pyStrip row.urn) = some o →
       (process_outlet_row (db, st) row).1.outlets.length = db.outlets.length ∧
       ((process_outlet_row (db, st) row).2.updated = st.updated + 1 ∨
        ((process_outlet_row (db, st) row).2.errors = st.errors + 1 ∧
         (process_outlet_row (db, st) row).1 = db))) ∧
    (db.outlets.find? (fun x => x.urn == pyStrip row.urn) = none →
       ((process_outlet_row (db, st) row).1.outlets.length = db.outlets.length + 1 ∧
        (process_outlet_row (db, st) row).2.imported = st.imported + 1) ∨
       ((process_outlet_row (db, st) row).1 = db ∧
        (process_outlet_row (db, st) row).2.errors = st.errors + 1)) ∧
    (∀ rows : List OutletReportRow,
       statTotal (process_outlet_data db rows).2 = rows.length) := by
  have hcond : ¬ (pyStrip row.urn = "" ∨ pyStrip row.outlet_name = "") := by
    simp [hurn, hname]
  refine ⟨⟨by decide, by decide, by decide⟩, ?_, ?_, ?_⟩
  · intro o hfound
    simp only [process_outlet_row]
    rw [if_neg hcond, hfound]
    cases hupd : dbUpdateOutletByUrn db row (pyStrip row.urn) with
    | ok db' =>
        exact ⟨dbUpdateOutletByUrn_length hupd, Or.inl rfl⟩
    | error e =>
        exact ⟨rfl, Or.inr ⟨rfl, rfl⟩⟩
  · intro hnone
    simp only [process_outlet_row]
    rw [if_neg hcond, hnone]
    cases hins : dbInsertOutlet db (reportOutlet (pyStrip row.urn) (pyStrip row.outlet_name) row) with
    | ok db' =>
        refine Or.inl ⟨?_, rfl⟩
        show db'.outlets.length = db.outlets.length + 1
        rw [dbInsertOutlet_outlets_shape hins]
        simp
    | error e =>
        exact Or.inr ⟨rfl, rfl⟩
  · intro rows
    rw [process_outlet_data, process_fold_total]
    simp [statTotal]

def c4db : DB :=
  { outlets := [{ oid := 1, urn := "DCP/4", outlet_name := "SHOP E", region := "SW" }],
    nextOutletId := 2 }

def c4row : OutletReportRow :=
  { urn := "DCP/4", outlet_name := "SHOP E RENAMED", region := "SE" }

/-- Witness for C4 at a concrete database and row. -/
theorem c4_import_alias_upsert_error_accumulation_witness :
    (((mapped_columns ["URN Code", "Outlet Name"]).lookup "URN" = some "URN Code" ∧
     (mapped_columns ["Outlet URN", "Name"]).lookup "URN" = some "Outlet URN" ∧
     (mapped_columns ["Serial"]).lookup "URN" = none) ∧
    (∀ o : Outlet, c4db.outlets.find? (fun x => x.urn == pyStrip c4row.urn) = some o →
       (process_outlet_row (c4db, {}) c4row).1.outlets.length = c4db.outlets.length ∧
       ((process_outlet_row (c4db, {}) c4row).2.updated = ImportStats.updated {} + 1 ∨
        ((process_outlet_row (c4db, {}) c4row).2.errors = ImportStats.errors {} + 1 ∧
         (process_outlet_row (c4db, {}) c4row).1 = c4db))) ∧
    (c4db.outlets.find? (fun x => x.urn == pyStrip c4row.urn) = none →
       ((process_outlet_row (c4db, {}) c4row).1.outlets.length = c4db.outlets.length + 1 ∧
        (process_outlet_row (c4db, {}) c4row).2.imported = ImportStats.imported {} + 1) ∨
       ((process_outlet_row (c4db, {}) c4row).1 = c4db ∧
        (process_outlet_row (c4db, {}) c4row).2.errors = ImportStats.errors {} + 1)) ∧
    (∀ rows : List OutletReportRow,
       statTotal (process_outlet_data c4db rows).2 = rows.length)) :=
  c4_import_alias_upsert_error_accumulation c4db {} c4row (by decide) (by decide)

/-! ## C7: /api/posm_deployments/export (`routes.export_posm_deployments`) -/

/-- A pandas DataFrame, as the export route uses it: named columns and one
assoc list of cells per row. -/
structure DataFrame where
  columns : List String
  rows : List (List (String × String))
deriving Repr, DecidableEq

/-- `removed_columns` (routes.py 1320-1329). -/
def removed_columns : List String :=
  ["Region", "LGA", "Executions", "Assigned", "Visited", "Coverage (%)",
   "Latitude", "Longitude"]

/-- `headers` (routes.py 1332-1337). -/
def export_headers : List String :=
  ["Agent Name", "URN", "Retail Point Name", "Address", "Phone", "Retail Point Type",
   "Region", "State", "LGA", "Executions", "Assigned", "Visited", "Coverage (%)",
   "Table", "Chair", "Parasol", "Tarpaulin", "Hawker Jacket", "Cup",
   "Latitude", "Longitude", "Before Image", "After Image"]

/-- `filtered_headers` (routes.py 1340). -/
def filtered_headers : List String :=
  export_headers.filter (fun c => !(removed_columns.contains c))

/-- `col_mapping` (routes.py 1343-1367): SQL column names to headers. -/
def col_mapping_assoc : List (String × String) :=
  [("agent_name", "Agent Name"), ("urn", "URN"), ("outlet_name", "Retail Point Name"),
   ("address", "Address"), ("phone", "Phone"), ("outlet_type", "Retail Point Type"),
   ("region", "Region"), ("state", "State"), ("local_govt", "LGA"),
   ("execution_count", "Executions"), ("assigned", "Assigned"), ("visited", "Visited"),
   ("coverage", "Coverage (%)"), ("table", "Table"), ("chair", "Chair"),
   ("parasol", "Parasol"), ("tarpaulin", "Tarpaulin"), ("hawker_jacket", "Hawker Jacket"),
   ("cup", "Cup"), ("latitude", "Latitude"), ("longitude", "Longitude"),
   ("before_image", "Before Image"), ("after_image", "After Image")]

/-- The column pipeline of the route: rename SQL columns to display headers,
add the missing columns as None, keep exactly `filtered_headers`. -/
def export_prepare (df : DataFrame) : DataFrame :=
  { columns := filtered_headers,
    rows := df.rows.map (fun r =>
      filtered_headers.map (fun c =>
        (c, (((r.map (fun kv =>
                (((col_mapping_assoc.lookup kv.1).getD kv.1), kv.2))).lookup c).getD
              "None")))) }

/-- What the route returns: a 404 JSON error, a file attachment in one of
the three formats, or a 400 JSON error. -/
inductive ExportResult where
  | noData (error : String)
  | csvFile (filename : String) (data : DataFrame)
  | xlsxFile (filename : String) (data : DataFrame)
  | pdfFile (filename : String) (data : DataFrame)
  | invalidType (error : String)
deriving Repr, DecidableEq

/-- `export_posm_deployments` (routes.py 1300-1530): default type csv,
emptiness checked before dispatch, unknown types rejected last. -/
def export_posm_deployments (df : DataFrame) (qtype : Option String) : ExportResult :=
  let export_type := qtype.getD "csv"
  let out := export_prepare df
  if out.rows.isEmpty then
    ExportResult.noData "No data found for the selected filters"
  else if export_type == "csv" then
    ExportResult.csvFile "posm_deployments.csv" out
  else if export_type == "xlsx" then
    ExportResult.xlsxFile "posm_deployments.xlsx" out
  else if export_type == "pdf" then
    ExportResult.pdfFile "posm_deployments.pdf" out
  else
    ExportResult.invalidType "Invalid export type"

/-- C7: with a non-empty result set the route returns a file attachment in
exactly the format named by the `type` query parameter (default csv), an
"Invalid export type" error for any other type value, and a "No data found"
error whenever the filtered result set is empty. -/
theorem c7_export_format_dispatch (df : DataFrame) (qtype : Option String)
    (hne : df.rows ≠ []) :
    (qtype.getD "csv" = "csv" →
       export_posm_deployments df qtype =
         ExportResult.csvFile "posm_deployments.csv" (export_prepare df)) ∧
    (qtype.getD "csv" = "xlsx" →
       export_posm_deployments df qtype =
         ExportResult.xlsxFile "posm_deployments.xlsx" (export_prepare df)) ∧
    (qtype.getD "csv" = "pdf" →
       export_posm_deployments df qtype =
         ExportResult.pdfFile "posm_deployments.pdf" (export_prepare df)) ∧
    (qtype.getD "csv" ∉ (["csv", "xlsx", "pdf"] : List String) →
       export_posm_deployments df qtype =
         ExportResult.invalidType "Invalid export type") ∧
    (∀ df' : DataFrame, ∀ q : Option String, df'.rows = [] →
       export_posm_deployments df' q =
         ExportResult.noData "No data found for the selected filters") := by
  have hout : (export_prepare df).rows.isEmpty = false := by
    rw [export_prepare]
    cases hdf : df.rows with
    | nil => exact absurd hdf hne
    | cons a l => simp
  refine ⟨?_, ?_, ?_, ?_, ?_⟩
  · intro ht
    simp [export_posm_deployments, hout, ht]
  · intro ht
    simp [export_posm_deployments, hout, ht]
  · intro ht
    simp [export_posm_deployments, hout, ht]
  · intro hnot
    simp only [List.mem_cons, List.not_mem_nil, or_false, not_or] at hnot
    obtain ⟨h1, h2, h3⟩ := hnot
    simp [export_posm_deployments, hout, h1, h2, h3]
  · intro df' q hdf
    simp [export_posm_deployments, export_prepare, hdf]

def c7df : DataFrame :=
  { columns := ["urn", "agent_name"],
    rows := [[("urn", "DCP/7"), ("agent_name", "A. Agent")]] }

/-- Witness for C7 at a concrete one-row data set. -/
theorem c7_export_format_dispatch_witness :
    ((Option.some "xlsx").getD "csv" = "csv" →
       export_posm_deployments c7df (some "xlsx") =
         ExportResult.csvFile "posm_deployments.csv" (export_prepare c7df)) ∧
    ((Option.some "xlsx").getD "csv" = "xlsx" →
       export_posm_deployments c7df (some "xlsx") =
         ExportResult.xlsxFile "posm_deployments.xlsx" (export_prepare c7df)) ∧
    ((Option.some "xlsx").getD "csv" = "pdf" →
       export_posm_deployments c7df (some "xlsx") =
         ExportResult.pdfFile "posm_deployments.pdf" (export_prepare c7df)) ∧
    ((Option.some "xlsx").getD "csv" ∉ (["csv", "xlsx", "pdf"] : List String) →
       export_posm_deployments c7df (some "xlsx") =
         ExportResult.invalidType "Invalid export type") ∧
    (∀ df' : DataFrame, ∀ q : Option String, df'.rows = [] →
       export_posm_deployments df' q =
         ExportResult.noData "No data found for the selected filters") :=
  c7_export_format_dispatch c7df (some "xlsx") (by decide)

/-! ## C10: `save_uploaded_file` and the shadowed `create_thumbnail` -/

/-- A Python runtime value, as far as the thumbnail call site needs. -/
inductive PyVal where
  | bool (b : Bool)
  | func (result : Option String)
deriving Repr, DecidableEq

/-- Python name resolution inside a function body: the local (parameter)
scope shadows the module scope. -/
def lookupName (localScope moduleScope : List (String × PyVal)) (n : String) :
    Option PyVal :=
  match localScope.lookup n with
  | some v => some v
  | none => moduleScope.lookup n

/-- Calling a value: a function returns its result; calling a bool raises
`TypeError`. -/
def pyCall : PyVal → Except String (Option String)
  | PyVal.func r => Except.ok r
  | PyVal.bool _ => Except.error "TypeError: bool object is not callable"

/-- The validation outcomes `save_uploaded_file` observes for the uploaded
file (`validate_file_type`, `validate_file_size`, `validate_image_content`). -/
structure UploadedFile where
  filename : String := ""
  typeValid : Bool := true
  sizeValid : Bool := true
  imageValid : Bool := true
deriving Repr, DecidableEq

/-- Ambient effects of the body: the generated secure filename, the saved
size, the timestamp, what `optimize_image` returns, and what the
module-level `create_thumbnail` function would return when called. -/
structure SaveEnv where
  secureName : String := "f.jpg"
  fileSize : Nat := 1
  uploadTime : String := "t0"
  optimizeResult : Option String := none
  thumbResult : Option String := none
deriving Repr, DecidableEq

/-- `pykes.utils.save_uploaded_file` (lines 129-193): validate, save, build
the result dict, optionally add `optimized_filename`, then - when the
boolean parameter `create_thumbnail` is truthy - call the name
`create_thumbnail`, which resolves to that boolean parameter (shadowing the
module function of the same name); the `TypeError` is swallowed by the
`except` around the thumbnail step. -/
def save_uploaded_file (file : UploadedFile) (upload_folder : String)
    ( create_thumbnail : Bool) (env : SaveEnv) : Option (List (String × String)) :=
  if !file.typeValid then none
  else if !file.sizeValid then none
  else if !file.imageValid then none
  else
    let moduleScope : List (String × PyVal) :=
      [("create_thumbnail", PyVal.func env.thumbResult)]
    let localScope : List (String × PyVal) :=
      [("create_thumbnail", PyVal.bool create_thumbnail)]
    let result0 : List (String × String) :=
      [("filename", env.secureName), ("original_filename", file.filename),
       ("file_size", Nat.repr env.fileSize), ("upload_time", env.uploadTime)]
    let result1 :=
      match env.optimizeResult with
      | some o => result0 ++ [("optimized_filename", o)]
      | none => result0
    if create_thumbnail then
      match lookupName localScope moduleScope "create_thumbnail" with
      | some v =>
          match pyCall v with
          | Except.ok (some t) => some (result1 ++ [("thumbnail_filename", t)])
          | Except.ok none => some result1
          | Except.error _ => some result1
      | none => some result1
    else
      some result1

/-- C10: with the default `create_thumbnail=True`, the result dict of
`save_uploaded_file` never contains the key `thumbnail_filename`: the
boolean parameter shadows the module-level function, so the call raises
`TypeError` (swallowed), and only the original and possibly optimized
filenames are returned. -/
theorem c10_thumbnail_key_never_present (file : UploadedFile)
    (upload_folder : String) (env : SaveEnv) (res : List (String × String))
    (h : save_uploaded_file file upload_folder true env = some res) :
    res.lookup "thumbnail_filename" = none ∧
    lookupName [("create_thumbnail", PyVal.bool true)]
        [("create_thumbnail", PyVal.func env.thumbResult)] "create_thumbnail" =
      some (PyVal.bool true) ∧
    pyCall (PyVal.bool true) =
      Except.error "TypeError: bool object is not callable" := by
  refine ⟨?_, rfl, rfl⟩
  simp only [save_uploaded_file] at h
  split at h
  · cases h
  · split at h
    · cases h
    · split at h
      · cases h
      · cases h
        split
        · rfl
        · rfl

def c10file : UploadedFile := { filename := "photo.jpg" }

def c10env : SaveEnv := { thumbResult := some "thumb_photo.jpg" }

/-- Witness for C10: a valid upload whose module-level thumbnail function
would have succeeded, yet the returned dict has no `thumbnail_filename`. -/
theorem c10_thumbnail_key_never_present_witness :
    save_uploaded_file c10file "static/uploads" true c10env =
      some [("filename", "f.jpg"), ("original_filename", "photo.jpg"),
            ("file_size", "1"), ("upload_time", "t0")] ∧
    ([("filename", "f.jpg"), ("original_filename", "photo.jpg"),
      ("file_size", "1"), ("upload_time", "t0")] : List (String × String)).lookup
        "thumbnail_filename" = none ∧
    lookupName [("create_thumbnail", PyVal.bool true)]
        [("create_thumbnail", PyVal.func c10env.thumbResult)] "create_thumbnail" =
      some (PyVal.bool true) ∧
    pyCall (PyVal.bool true) =
      Except.error "TypeError: bool object is not callable" :=
  ⟨by decide,
   c10_thumbnail_key_never_present c10file "static/uploads" c10env
     [("filename", "f.jpg"), ("original_filename", "photo.jpg"),
      ("file_size", "1"), ("upload_time", "t0")] (by decide)⟩
